import Mathlib

/-!
Verification of the device-fingerprint collection program.

The development shallowly embeds the Python sources `main.py` and `utils.py`.
Ambient operating-system state (host name, network interfaces, the speed test,
file-system permissions) is supplied through explicit environment parameters;
each value that the corresponding library call could fail to produce is an
`Except` value.  Machine-level exceptions are the inductive `PyExc`; a caught
exception becomes an outcome value, an uncaught one an `Except.error` result.
-/

deriving instance DecidableEq for Except

/-- `pre` is a leading run of `s` (character-list form of Python
`str.startswith`). -/
def charsLeadWith : List Char → List Char → Bool
  | [], _ => true
  | _ :: _, [] => false
  | a :: as, b :: bs => a == b && charsLeadWith as bs

/-- Python `str.startswith`. -/
def pyStartsWith (s pat : String) : Bool :=
  charsLeadWith pat.data s.data

/-- Python `str.lower`. -/
def pyLower (s : String) : String :=
  ⟨s.data.map Char.toLower⟩

/-- Python `str.strip()` with no argument: drop leading and trailing
whitespace. -/
def pyStrip (s : String) : String :=
  ⟨((s.data.dropWhile Char.isWhitespace).reverse.dropWhile
      Char.isWhitespace).reverse⟩

/-- Grouping pass of Python `str.split()`: cut the character list at every
whitespace character (empty groups appear at whitespace runs). -/
def splitWsAux : List Char → List (List Char)
  | [] => [[]]
  | c :: cs =>
    match splitWsAux cs with
    | [] => [[]]
    | g :: gs => if c.isWhitespace then [] :: g :: gs else (c :: g) :: gs

/-- Python `str.split()` with no argument: split on whitespace runs and drop
the empty pieces. -/
def pySplitWs (s : String) : List String :=
  ((splitWsAux s.data).filter (fun g => g ≠ [])).map (fun g => ⟨g⟩)

/-- Modelled from the spec: the module `exeptions.py` (imported by `main.py`
for `UnsupportedOperatingSystemException`, `DataCollectionException` and
`DuplicateDataException`) is not part of the sources.  Its classes, together
with the built-in Python exceptions the program raises or catches, are
modelled as distinct variants of one error taxonomy (spec section 7). -/
inductive PyExc where
  | unsupportedOS
  | dataCollection
  | duplicateData
  | permissionError
  | keyError
  | attributeError
  | timeoutError
  | otherError
  deriving DecidableEq, Repr

/-- Address families used by the probes; `AF_LINK` is the hardware family. -/
inductive AddressFamily where
  | AF_LINK
  | AF_INET
  | AF_INET6
  deriving DecidableEq, Repr

/-- A network-interface address entry (psutil `snicaddr`). -/
structure Snicaddr where
  family : AddressFamily
  address : String
  netmask : String
  broadcast : Option String
  ptp : Option String
  deriving DecidableEq, Repr

/-- The common interface-name patterns of `getMacAddress` (`main.py` line 24):
`["eth", "en", "wlan", "wl", "l"]`. -/
def knownNicNames : List String := ["eth", "en", "wlan", "wl", "l"]

/-- `any([interface.lower().startswith(p) for p in prefixes])`
(`main.py` line 29). -/
def nicMatches (p : String × List Snicaddr) : Bool :=
  knownNicNames.any (fun s => pyStartsWith (pyLower p.1) s)

/-- The inner loop of `getMacAddress` (`main.py` lines 30-32): walk the
address list, remembering the address of every `AF_LINK` entry, so the last
such entry wins. -/
def lastLinkAddr (l : List Snicaddr) : Option String :=
  l.foldl (fun acc a => if a.family = AddressFamily.AF_LINK then some a.address else acc) none

/-- The outer loop of `getMacAddress` (`main.py` lines 28-33): scan the
interface mapping in order; at the first interface whose lowercased name
starts with a known pattern, take the last `AF_LINK` address of that
interface and `break`. -/
def macLoop : List (String × List Snicaddr) → Option String
  | [] => none
  | p :: rest => if nicMatches p then lastLinkAddr p.2 else macLoop rest

/-- `getMacAddress` (`main.py` lines 14-37): raises `DataCollectionException`
when the loop leaves `macAddress` as `None`, otherwise returns the address. -/
def getMacAddress (address : List (String × List Snicaddr)) : Except PyExc String :=
  match macLoop address with
  | none => Except.error PyExc.dataCollection
  | some macAddress => Except.ok macAddress

/-- A socket connection record as consumed by `getActivePorts`
(psutil `sconn`: a status and a local-address port). -/
structure SConn where
  status : String
  laddrPort : Nat
  deriving DecidableEq, Repr

/-- The comprehension of `getActivePorts` (`main.py` lines 72-73) before the
join: filter to `LISTEN` connections, take the string of each local port, and
collect them into a set.  A Python set iterates in an implementation-defined
order; the model fixes one concrete order by `List.dedup`. -/
def activePortsList (connections : List SConn) : List String :=
  (((connections.filter (fun c => c.status == "LISTEN"))).map
      (fun c => toString c.laddrPort)).dedup

/-- `getActivePorts` (`main.py` lines 64-74): comma-join the port set. -/
def getActivePorts (connections : List SConn) : String :=
  ", ".intercalate (activePortsList connections)

/-- Parsing of the `lscpu` output on the Linux branch of `getProcessorModel`
(`main.py` lines 55-58): `rawString.strip().split()[2:]` joined by spaces.
Python `split()` splits on whitespace runs and drops empty pieces. -/
def linuxModelName (rawString : String) : String :=
  " ".intercalate ((pySplitWs (pyStrip rawString)).drop 2)

/-- A device record: a Python `dict` with string keys and values, which keeps
its keys in insertion order (spec section 3, `DeviceRecord`). -/
abbrev DeviceRecord := List (String × String)

/-- `deviceInfo.keys()`: the keys of a record in insertion order. -/
def recordKeys (r : DeviceRecord) : List String := r.map Prod.fst

/-- The values of a record in key order, as `csv.DictWriter.writerow` emits
them when its `fieldnames` are the record's own keys. -/
def recordValues (r : DeviceRecord) : List String := r.map Prod.snd

/-- `deviceInfo[k]`: Python dict lookup, `none` when the key is absent
(a `KeyError` at the call site). -/
def recordLookup (r : DeviceRecord) (k : String) : Option String :=
  (r.find? (fun p => p.1 == k)).map Prod.snd

/-- The ambient values consumed by one run of `collectData` (`main.py`
lines 93-152).  Every value whose library call can raise is an `Except`. -/
structure CollectEnv where
  /-- `platform.system()` (line 118). -/
  platformSystem : String
  /-- `cpuinfo.get_cpu_info()["brand_raw"]` on the Windows branch (line 53). -/
  cpuBrand : Except PyExc String
  /-- the raw output of `os.popen("lscpu | grep 'Model name'").read()`
  on the Linux branch (line 56). -/
  lscpuRaw : Except PyExc String
  /-- `psutil.net_if_addrs()` (line 125). -/
  netIfAddrs : Except PyExc (List (String × List Snicaddr))
  /-- `socket.gethostname()` (line 128). -/
  hostname : Except PyExc String
  /-- `socket.gethostbyname(computerName)` (line 131). -/
  hostByName : Except PyExc String
  /-- `datetime.datetime.now().strftime("%H:%M:%S")` (line 134). -/
  systemTime : String
  /-- `psutil.net_connections()` (line 136). -/
  netConnections : Except PyExc (List SConn)
  /-- `getInternetSpeed()` (lines 77-90); a timeout surfaces here as
  `Except.error PyExc.timeoutError`. -/
  internetSpeed : Except PyExc String

/-- `getProcessorModel` (`main.py` lines 40-61): match on the stripped
operating-system name; Windows asks `cpuinfo`, Linux parses `lscpu`, anything
else raises `UnsupportedOperatingSystemException`. -/
def getProcessorModel (env : CollectEnv) (operatingSystem : String) :
    Except PyExc String :=
  match pyStrip operatingSystem with
  | "Windows" => env.cpuBrand
  | "Linux" => env.lscpuRaw.map linuxModelName
  | _ => Except.error PyExc.unsupportedOS

/-- The body of the `try` block of `collectData` (`main.py` lines 114-142):
build the record field by field, in source order, stopping at the first
exception. -/
def collectDataEx (env : CollectEnv) : Except PyExc DeviceRecord :=
  match getProcessorModel env env.platformSystem with
  | Except.error e => Except.error e
  | Except.ok processorModel =>
    match env.netIfAddrs with
    | Except.error e => Except.error e
    | Except.ok ifaddrs =>
      match getMacAddress ifaddrs with
      | Except.error e => Except.error e
      | Except.ok macAddress =>
        match env.hostname with
        | Except.error e => Except.error e
        | Except.ok computerName =>
          match env.hostByName with
          | Except.error e => Except.error e
          | Except.ok ipAddress =>
            match env.netConnections with
            | Except.error e => Except.error e
            | Except.ok connections =>
              match env.internetSpeed with
              | Except.error e => Except.error e
              | Except.ok internetSpeed =>
                Except.ok
                  [("operating_system", env.platformSystem),
                   ("processor_model", processorModel),
                   ("mac_address", macAddress),
                   ("computer_name", computerName),
                   ("ip_address", ipAddress),
                   ("system_time", env.systemTime),
                   ("active_ports", getActivePorts connections),
                   ("internet_speed", internetSpeed)]

/-- `collectData` (`main.py` lines 93-152) with its `except` clauses
(lines 143-152): a success returns the record, every exception is caught and
turned into a `None` result plus the printed message of its clause. -/
def collectData (env : CollectEnv) : Option DeviceRecord × String :=
  match collectDataEx env with
  | Except.ok deviceInfo => (some deviceInfo, "Data collection successful!")
  | Except.error PyExc.unsupportedOS =>
      (none, "This program only supports Linux and Windows.")
  | Except.error PyExc.dataCollection => (none, "Data collection failed")
  | Except.error PyExc.timeoutError => (none, "Program took too long to finish.")
  | Except.error _ => (none, "Program failed due to unexpected error.")

/-- The parsed shape of a non-empty store file: the header line followed by
the data rows (spec section 6). -/
structure Store where
  header : List String
  rows : List (List String)
  deriving DecidableEq, Repr

/-- The state of the file at the store path. -/
inductive FileState where
  | absent
  | empty
  | table (s : Store)
  deriving DecidableEq, Repr

/-- `Path(filePath).touch(exist_ok=True)` (`main.py` line 172): create the
file empty when it is absent, leave it alone otherwise. -/
def touchFile : FileState → FileState
  | FileState.absent => FileState.empty
  | fs => fs

/-- The data rows of a file state (none unless it is a parsed table). -/
def dataRows : FileState → List (List String)
  | FileState.table s => s.rows
  | _ => []

/-- The index of the last occurrence of `k` in `l`; when a CSV header repeats
a name, `csv.DictReader` builds its row dict by later assignments winning,
so the last occurrence decides the column. -/
def lastIdx (l : List String) (k : String) : Option Nat :=
  match l with
  | [] => none
  | a :: rest =>
    match lastIdx rest k with
    | some i => some (i + 1)
    | none => if a == k then some 0 else none

/-- `row[k]` on a `csv.DictReader` row: outer `none` is a `KeyError`
(`k` not in the header); inner `none` is Python `None`, the `restval` used
when the row is shorter than the header. -/
def dictRowGet (header row : List String) (k : String) : Option (Option String) :=
  (lastIdx header k).map (fun i => row.get? i)

/-- The duplicate scan of `writeToCSV` (`main.py` lines 186-190): walk the
data rows, stop at the first row whose `mac_address` column equals the
incoming one; a `KeyError` (no `mac_address` column) escapes the loop. -/
def scanDup (macAddress : String) (header : List String) :
    List (List String) → Except PyExc Bool
  | [] => Except.ok false
  | row :: rest =>
    match dictRowGet header row "mac_address" with
    | none => Except.error PyExc.keyError
    | some existing =>
      if existing = some macAddress then Except.ok true
      else scanDup macAddress header rest

/-- The outcome printed by `writeToCSV`: the success message (line 202) or
one of the three `except` clauses (lines 203-210). -/
inductive WriteOutcome where
  | written
  | duplicate
  | permissionDenied
  | unexpected
  deriving DecidableEq, Repr

/-- The `except` dispatch of `writeToCSV` (`main.py` lines 203-210):
`DuplicateDataException`, then `PermissionError`, then any `Exception`. -/
def handleExc : PyExc → WriteOutcome
  | PyExc.duplicateData => WriteOutcome.duplicate
  | PyExc.permissionError => WriteOutcome.permissionDenied
  | _ => WriteOutcome.unexpected

/-- `writeToCSV` (`main.py` lines 155-210).  `touchExc` is an exception the
initial `Path.touch` raises (line 172, before the `try` block, so it
propagates out of the function); `duringExc` is an exception the file system
raises inside the `with` block (open, read or write), which the `except`
clauses catch.  A `None` record (`deviceInfo.keys()` on `None`, line 177)
raises `AttributeError`, caught by the generic clause.  On a non-empty file
the duplicate scan runs; the empty file gets a header naming the record's own
keys followed by the record's values (lines 198-200); otherwise the record's
values are appended after the existing rows (lines 195-196). -/
def writeToCSV (deviceInfo : Option DeviceRecord) (fileSt : FileState)
    (touchExc duringExc : Option PyExc) :
    Except PyExc (WriteOutcome × FileState) :=
  match touchExc with
  | some e => Except.error e
  | none =>
    let file := touchFile fileSt
    Except.ok (match duringExc with
      | some e => (handleExc e, file)
      | none =>
        match deviceInfo with
        | none => (handleExc PyExc.attributeError, file)
        | some r =>
          match file with
          | FileState.absent => (WriteOutcome.unexpected, FileState.absent)
          | FileState.empty =>
              (WriteOutcome.written,
               FileState.table ⟨recordKeys r, [recordValues r]⟩)
          | FileState.table s =>
            match recordLookup r "mac_address" with
            | none => (handleExc PyExc.keyError, FileState.table s)
            | some macAddress =>
              match scanDup macAddress s.header s.rows with
              | Except.error e => (handleExc e, FileState.table s)
              | Except.ok true =>
                  (WriteOutcome.duplicate, FileState.table s)
              | Except.ok false =>
                  (WriteOutcome.written,
                   FileState.table ⟨s.header, s.rows ++ [recordValues r]⟩))

/-- `mockMacAddress` (`utils.py` line 6). -/
def mockMacAddress : String := "34-5A-60-22-18-B2"

/-- A `MockSnicaddr` (`utils.py` lines 9-20) carrying an `AF_LINK` address. -/
def mockSnicLink (address : String) : Snicaddr :=
  ⟨AddressFamily.AF_LINK, address, "255.255.255.0", none, none⟩

/-- A `MockSnicaddr` with family `AF_INET6`. -/
def mockSnicInet6 (address : String) : Snicaddr :=
  ⟨AddressFamily.AF_INET6, address, "255.255.255.0", none, none⟩

/-- A `MockSnicaddr` with family `AF_INET`. -/
def mockSnicInet (address : String) : Snicaddr :=
  ⟨AddressFamily.AF_INET, address, "255.255.255.0", none, none⟩

/-- `mockNicAddresses` (`utils.py` lines 50-62). -/
def mockNicAddresses (int1 int2 : String) : List (String × List Snicaddr) :=
  [(int1, [mockSnicLink mockMacAddress, mockSnicInet6 "test1", mockSnicInet "test2"]),
   (int2, [mockSnicLink "11-22-33-44-55-66", mockSnicInet6 "test3", mockSnicInet "test4"])]

/-- `mockSConns` (`utils.py` lines 29-37). -/
def mockSConns : List SConn :=
  [⟨"NONE", 80⟩, ⟨"LISTEN", 443⟩, ⟨"NONE", 8080⟩,
   ⟨"NONE", 1337⟩, ⟨"LISTEN", 5173⟩, ⟨"NONE", 123⟩]

/-- `mockData` (`utils.py` lines 40-47): the dict literal, keys in its
source order. -/
def mockData (mac : String) : DeviceRecord :=
  [("active_ports", "7865, 6188, 63903, 139, 5040, 445, 49664, 5563, 32683, 49665, 63342, 135, 41017, 49677, 7680, 5990, 59330, 49668, 5146, 33683, 6189, 1462, 6341, 63344, 19294, 9080, 49669, 63812, 64411, 26822, 54936, 63343, 49670, 49690"),
   ("computer_name", "MSI"),
   ("internet_speed", "download: 82.44 Mb/s, upload: 28.00 Mb/s"),
   ("ip_address", "192.168.1.102"),
   ("mac_address", mac),
   ("operating_system", "Windows"),
   ("processor_model", "Intel(R) Core(TM) i7-14650HX"),
   ("system_time", "19:01:19")]

/-- The field order claimed by the spec (section 3): `computer_name` first. -/
def specFieldOrder : List String :=
  ["computer_name", "operating_system", "processor_model", "mac_address",
   "ip_address", "system_time", "active_ports", "internet_speed"]

/-- The field order `collectData` actually inserts (`main.py` lines 120-139):
`operating_system` first, `computer_name` fourth. -/
def collectedFieldOrder : List String :=
  ["operating_system", "processor_model", "mac_address", "computer_name",
   "ip_address", "system_time", "active_ports", "internet_speed"]

/-- A collection environment in which every probe succeeds, built from the
mock values of `utils.py`. -/
def envOk : CollectEnv :=
  ⟨"Windows", Except.ok "Intel(R) Core(TM) i7-14650HX", Except.ok "",
   Except.ok (mockNicAddresses "Ethernet" "Bluetooth Network Connection"),
   Except.ok "MSI", Except.ok "192.168.1.102", "19:01:19",
   Except.ok mockSConns, Except.ok "download: 82.44 Mb/s, upload: 28.00 Mb/s"⟩

/-- `envOk` with the operating system reported as `"Invalid"`. -/
def envInvalid : CollectEnv :=
  ⟨"Invalid", envOk.cpuBrand, envOk.lscpuRaw, envOk.netIfAddrs, envOk.hostname,
   envOk.hostByName, envOk.systemTime, envOk.netConnections, envOk.internetSpeed⟩

/-! ## Helper lemmas -/

/-- A fold looking for `AF_LINK` entries leaves its accumulator unchanged
when the list has none. -/
theorem linkFold_const (l : List Snicaddr) (acc : Option String)
    (h : ∀ a ∈ l, a.family ≠ AddressFamily.AF_LINK) :
    l.foldl (fun acc a =>
      if a.family = AddressFamily.AF_LINK then some a.address else acc) acc = acc := by
  induction l generalizing acc with
  | nil => rfl
  | cons a rest ih =>
    simp only [List.foldl_cons]
    rw [if_neg (h a (by simp))]
    exact ih acc (fun x hx => h x (by simp [hx]))

/-- `lastLinkAddr` finds nothing on a list without `AF_LINK` entries. -/
theorem lastLinkAddr_eq_none (l : List Snicaddr)
    (h : ∀ a ∈ l, a.family ≠ AddressFamily.AF_LINK) : lastLinkAddr l = none :=
  linkFold_const l none h

/-- The interface loop finds nothing when no entry of the whole mapping has
the hardware family. -/
theorem macLoop_eq_none (m : List (String × List Snicaddr))
    (h : ∀ p ∈ m, ∀ a ∈ p.2, a.family ≠ AddressFamily.AF_LINK) :
    macLoop m = none := by
  induction m with
  | nil => rfl
  | cons p rest ih =>
    simp only [macLoop]
    by_cases hm : nicMatches p
    · rw [if_pos hm]
      exact lastLinkAddr_eq_none p.2 (h p (by simp))
    · rw [if_neg hm]
      exact ih (fun q hq a ha => h q (by simp [hq]) a ha)

/-- The interface loop evaluates `lastLinkAddr` on the first interface whose
name matches a known pattern. -/
theorem macLoop_find (m : List (String × List Snicaddr))
    (nic : String × List Snicaddr) (h : m.find? nicMatches = some nic) :
    macLoop m = lastLinkAddr nic.2 := by
  induction m with
  | nil => cases h
  | cons p rest ih =>
    by_cases hm : nicMatches p
    · rw [List.find?_cons_of_pos _ hm] at h
      cases h
      simp [macLoop, hm]
    · rw [List.find?_cons_of_neg _ hm] at h
      simp only [macLoop, if_neg hm]
      exact ih h

/-- The last occurrence of a member has an index. -/
theorem lastIdx_isSome_of_mem {l : List String} {k : String} (h : k ∈ l) :
    ∃ i, lastIdx l k = some i := by
  induction l with
  | nil => cases h
  | cons a rest ih =>
    cases hr : lastIdx rest k with
    | some i => exact ⟨i + 1, by simp [lastIdx, hr]⟩
    | none =>
      rcases List.mem_cons.mp h with h1 | h2
      · subst h1
        exact ⟨0, by simp [lastIdx, hr]⟩
      · obtain ⟨i, hi⟩ := ih h2
        rw [hi] at hr
        cases hr

/-- When the header has a `mac_address` column and no data row carries `mac`
there, the duplicate scan of `writeToCSV` answers `false`. -/
theorem scanDup_false (mac : String) (header : List String)
    (rows : List (List String)) (hmem : "mac_address" ∈ header)
    (hall : ∀ row ∈ rows, dictRowGet header row "mac_address" ≠ some (some mac)) :
    scanDup mac header rows = Except.ok false := by
  induction rows with
  | nil => rfl
  | cons row rest ih =>
    obtain ⟨i, hi⟩ := lastIdx_isSome_of_mem hmem
    have hrg : dictRowGet header row "mac_address" = some (row.get? i) := by
      simp [dictRowGet, hi]
    have hne : ¬ (row.get? i = some mac) := by
      intro hc
      exact hall row (by simp) (by rw [hrg, hc])
    simp only [scanDup, hrg, if_neg hne]
    exact ih (fun x hx => hall x (by simp [hx]))

/-- When some data row carries `mac` in the `mac_address` column, the
duplicate scan of `writeToCSV` answers `true`. -/
theorem scanDup_true (mac : String) (header : List String)
    (rows : List (List String))
    (hex : ∃ row ∈ rows, dictRowGet header row "mac_address" = some (some mac)) :
    scanDup mac header rows = Except.ok true := by
  induction rows with
  | nil => simp at hex
  | cons row rest ih =>
    obtain ⟨w, hw, hwval⟩ := hex
    have hkey : ∃ i, lastIdx header "mac_address" = some i := by
      cases hli : lastIdx header "mac_address" with
      | none => rw [dictRowGet, hli] at hwval; cases hwval
      | some i => exact ⟨i, rfl⟩
    obtain ⟨i, hi⟩ := hkey
    have hrg : dictRowGet header row "mac_address" = some (row.get? i) := by
      simp [dictRowGet, hi]
    by_cases hcase : row.get? i = some mac
    · simp only [scanDup, hrg, if_pos hcase]
    · rcases List.mem_cons.mp hw with heq | hwrest
      · rw [heq] at hwval
        rw [hrg] at hwval
        exact absurd (Option.some.inj hwval) hcase
      · simp only [scanDup, hrg, if_neg hcase]
        exact ih ⟨w, hwrest, hwval⟩

/-! ## Claim C5 -/

/-- An `AF_LINK` entry living on an interface whose name matches none of the
known patterns. -/
def unmatchedNicEntry : Snicaddr := mockSnicLink "aa-bb-cc-dd-ee-ff"

/-- C5, counterexample: the mapping `{"ZZZ": [an AF_LINK entry]}` contains a
valid hardware-family entry, yet `getMacAddress` raises
`DataCollectionException` instead of returning that entry's address, because
`"zzz"` starts with none of the known interface-name patterns. -/
theorem getMacAddress_unmatched_counterexample :
    unmatchedNicEntry.family = AddressFamily.AF_LINK ∧
    getMacAddress [("ZZZ", [unmatchedNicEntry])] =
      Except.error PyExc.dataCollection :=
  ⟨rfl, by decide⟩

/-- C5, amended: when no entry of the mapping has the hardware family
`AF_LINK`, `getMacAddress` fails with `DataCollectionException`; when the
first interface whose lowercased name starts with one of the patterns
`eth, en, wlan, wl, l` has hardware-family entries, `getMacAddress` returns
the address of the last such entry of that interface. -/
theorem getMacAddress_discovery (m : List (String × List Snicaddr)) :
    ((∀ p ∈ m, ∀ a ∈ p.2, a.family ≠ AddressFamily.AF_LINK) →
        getMacAddress m = Except.error PyExc.dataCollection) ∧
    (∀ nic mac, m.find? nicMatches = some nic → lastLinkAddr nic.2 = some mac →
        getMacAddress m = Except.ok mac) := by
  constructor
  · intro h
    unfold getMacAddress
    rw [macLoop_eq_none m h]
  · intro nic mac hf hl
    unfold getMacAddress
    rw [macLoop_find m nic hf, hl]

/-- A mapping without any hardware-family entry. -/
def noLinkNicMap : List (String × List Snicaddr) :=
  [("eth0", [mockSnicInet "10.0.0.5"]), ("lo", [mockSnicInet6 "::1"])]

/-- Witness for `getMacAddress_discovery`: both hypotheses are dischargeable
on concrete mappings, with the mock mapping of the test suite on the
returning side. -/
theorem getMacAddress_discovery_witness :
    getMacAddress noLinkNicMap = Except.error PyExc.dataCollection ∧
    getMacAddress (mockNicAddresses "Ethernet" "Bluetooth Network Connection") =
      Except.ok "34-5A-60-22-18-B2" :=
  ⟨(getMacAddress_discovery noLinkNicMap).1 (by decide),
   (getMacAddress_discovery
       (mockNicAddresses "Ethernet" "Bluetooth Network Connection")).2
     ("Ethernet", [mockSnicLink mockMacAddress, mockSnicInet6 "test1",
       mockSnicInet "test2"])
     "34-5A-60-22-18-B2" (by decide) (by decide)⟩

/-! ## Claims about the record store -/

/-- The store shape under which claim C1 promises an append: an absent or
empty store always qualifies; a parsed table must carry a `mac_address`
column and no data row holding `mac` there. -/
def storeOkNoDup (mac : String) : FileState → Prop
  | FileState.table s =>
      "mac_address" ∈ s.header ∧
      ∀ row ∈ s.rows, dictRowGet s.header row "mac_address" ≠ some (some mac)
  | _ => True

instance (mac : String) (fs : FileState) : Decidable (storeOkNoDup mac fs) :=
  match fs with
  | FileState.absent => inferInstanceAs (Decidable True)
  | FileState.empty => inferInstanceAs (Decidable True)
  | FileState.table _ => inferInstanceAs (Decidable (_ ∧ _))

/-- The header of the store after a successful write: a fresh store gets the
record's own keys, an existing table keeps its header. -/
def expectedHeader (fs : FileState) (r : DeviceRecord) : List String :=
  match fs with
  | FileState.table s => s.header
  | _ => recordKeys r

/-- C1: writing a record whose `mac_address` appears in no data row appends
exactly the record's row at the end, leaves the header and every prior row
unchanged, reports success, and raises nothing. -/
theorem writeToCSV_appends_new_mac (r : DeviceRecord) (fs : FileState)
    (mac : String) (h1 : recordLookup r "mac_address" = some mac)
    (h2 : storeOkNoDup mac fs) :
    writeToCSV (some r) fs none none =
      Except.ok (WriteOutcome.written,
        FileState.table ⟨expectedHeader fs r, dataRows fs ++ [recordValues r]⟩) := by
  cases fs with
  | absent => rfl
  | empty => rfl
  | table s =>
    obtain ⟨hmem, hall⟩ := h2
    have hs := scanDup_false mac s.header s.rows hmem hall
    simp [writeToCSV, touchFile, expectedHeader, dataRows, h1, hs]

/-- The one-row store produced by writing the default mock record. -/
def storeWithMock : Store :=
  ⟨recordKeys (mockData mockMacAddress), [recordValues (mockData mockMacAddress)]⟩

/-- Witness for `writeToCSV_appends_new_mac`: a second record with a fresh
MAC is appended behind the mock row. -/
theorem writeToCSV_appends_new_mac_witness :
    writeToCSV (some (mockData "11-22-33-44-55-66"))
        (FileState.table storeWithMock) none none =
      Except.ok (WriteOutcome.written,
        FileState.table
          ⟨expectedHeader (FileState.table storeWithMock) (mockData "11-22-33-44-55-66"),
           dataRows (FileState.table storeWithMock) ++
             [recordValues (mockData "11-22-33-44-55-66")]⟩) :=
  writeToCSV_appends_new_mac (mockData "11-22-33-44-55-66")
    (FileState.table storeWithMock) "11-22-33-44-55-66" (by decide) (by decide)

/-- C2: writing a record whose `mac_address` already sits in some data row
reports the duplicate outcome, appends nothing, leaves the store exactly as
it was, and raises nothing. -/
theorem writeToCSV_rejects_duplicate (r : DeviceRecord) (s : Store)
    (mac : String) (h1 : recordLookup r "mac_address" = some mac)
    (h2 : ∃ row ∈ s.rows, dictRowGet s.header row "mac_address" = some (some mac)) :
    writeToCSV (some r) (FileState.table s) none none =
      Except.ok (WriteOutcome.duplicate, FileState.table s) := by
  have hs := scanDup_true mac s.header s.rows h2
  simp [writeToCSV, touchFile, h1, hs]

/-- Witness for `writeToCSV_rejects_duplicate`: re-writing the mock record
over the store already holding it is refused. -/
theorem writeToCSV_rejects_duplicate_witness :
    writeToCSV (some (mockData mockMacAddress)) (FileState.table storeWithMock)
        none none =
      Except.ok (WriteOutcome.duplicate, FileState.table storeWithMock) :=
  writeToCSV_rejects_duplicate (mockData mockMacAddress) storeWithMock
    mockMacAddress (by decide) (by decide)

/-- C3: `Path(filePath).touch(exist_ok=True)` runs before the `try` block of
`writeToCSV` (`main.py` line 172 against line 174), so a permission refusal
while opening the path for creation propagates out of the function as an
uncaught `PermissionError` instead of the caught permission-denied report. -/
theorem writeToCSV_touch_permission_propagates :
    writeToCSV (some (mockData mockMacAddress)) FileState.absent
      (some PyExc.permissionError) none = Except.error PyExc.permissionError := rfl

/-- C9: writing the `None` record the assembler yields after a failed
collection raises nothing: the `AttributeError` from `None.keys()` is caught
by the generic clause and reported as an unexpected error, the file is still
created (empty when it was absent), and no row is written. -/
theorem writeToCSV_null_record (fs : FileState) :
    writeToCSV none fs none none =
      Except.ok (WriteOutcome.unexpected, touchFile fs) ∧
    touchFile FileState.absent = FileState.empty ∧
    dataRows (touchFile fs) = dataRows fs := by
  refine ⟨?_, rfl, ?_⟩ <;> cases fs <;> rfl

/-! ## Claim C6 -/

/-- The `mac_address` column read back after writing the mock record to an
initially absent store and then a record with a fresh MAC
(the scenario of `testWriteToCSVShouldUpdateExistingRecordWithNewData`). -/
def twoWriteMacColumn : Option (List (Option (Option String))) :=
  match writeToCSV (some (mockData mockMacAddress)) FileState.absent none none with
  | Except.ok (_, fs1) =>
    match writeToCSV (some (mockData "11-22-33-44-55-66")) fs1 none none with
    | Except.ok (_, FileState.table s) =>
        some (s.rows.map (fun row => dictRowGet s.header row "mac_address"))
    | _ => none
  | _ => none

/-- C6: after writing `34-5A-60-22-18-B2` and then `11-22-33-44-55-66` to an
initially empty store, the store holds exactly two data rows in insertion
order, the original MAC first and the new MAC second. -/
theorem writeToCSV_insertion_order :
    twoWriteMacColumn =
      some [some (some "34-5A-60-22-18-B2"), some (some "11-22-33-44-55-66")] := by
  decide

/-! ## Claims about the snapshot assembler -/

/-- Every record the `try` block of `collectData` returns carries its fields
in the source's insertion order. -/
theorem collectDataEx_keys (env : CollectEnv) (r : DeviceRecord)
    (h : collectDataEx env = Except.ok r) : recordKeys r = collectedFieldOrder := by
  unfold collectDataEx at h
  repeat' split at h
  all_goals cases h
  all_goals rfl

/-- A successful `collectData` run goes through the `try` block. -/
theorem collectData_ok (env : CollectEnv) (r : DeviceRecord)
    (h : (collectData env).1 = some r) : collectDataEx env = Except.ok r := by
  unfold collectData at h
  split at h <;> simp_all

/-- C4, counterexample: on a fully successful environment the collected
record's field order starts with `operating_system`, not with the
`computer_name` the claim announces. -/
theorem collectData_field_order_counterexample :
    ((collectData envOk).1).map recordKeys = some collectedFieldOrder ∧
    collectedFieldOrder ≠ specFieldOrder :=
  ⟨by decide, by decide⟩

/-- C4, amended: the record assembled by `collectData` carries its fields in
the fixed order `operating_system, processor_model, mac_address,
computer_name, ip_address, system_time, active_ports, internet_speed`, and
writing the first record to an empty store emits a header row naming the
columns in exactly that record's field order. -/
theorem collectData_field_order (env : CollectEnv) (r : DeviceRecord)
    (h : (collectData env).1 = some r) :
    recordKeys r = collectedFieldOrder ∧
    writeToCSV (some r) FileState.empty none none =
      Except.ok (WriteOutcome.written,
        FileState.table ⟨recordKeys r, [recordValues r]⟩) :=
  ⟨collectDataEx_keys env r (collectData_ok env r h), rfl⟩

/-- The record `collectData` assembles on the environment `envOk`. -/
def recOk : DeviceRecord :=
  [("operating_system", "Windows"),
   ("processor_model", "Intel(R) Core(TM) i7-14650HX"),
   ("mac_address", "34-5A-60-22-18-B2"),
   ("computer_name", "MSI"),
   ("ip_address", "192.168.1.102"),
   ("system_time", "19:01:19"),
   ("active_ports", "443, 5173"),
   ("internet_speed", "download: 82.44 Mb/s, upload: 28.00 Mb/s")]

/-- Witness for `collectData_field_order` at the environment `envOk`. -/
theorem collectData_field_order_witness :
    recordKeys recOk = collectedFieldOrder ∧
    writeToCSV (some recOk) FileState.empty none none =
      Except.ok (WriteOutcome.written,
        FileState.table ⟨recordKeys recOk, [recordValues recOk]⟩) :=
  collectData_field_order envOk recOk (by decide)

/-- C7: whenever any step of the collection fails — unsupported operating
system, a probe without a value, a timeout of the throughput probe, or any
other unexpected error — `collectData` yields `None` with a report different
from the success message, and raises nothing; and `getProcessorModel`
applied to `"Invalid"` fails with `UnsupportedOperatingSystemException`. -/
theorem collectData_fault_isolation (env : CollectEnv) (e : PyExc)
    (h : collectDataEx env = Except.error e) :
    (collectData env).1 = none ∧
    (collectData env).2 ≠ "Data collection successful!" ∧
    getProcessorModel env "Invalid" = Except.error PyExc.unsupportedOS := by
  refine ⟨?_, ?_, rfl⟩
  · unfold collectData
    rw [h]
    cases e <;> rfl
  · unfold collectData
    rw [h]
    cases e <;> decide

/-- Witness for `collectData_fault_isolation`: the environment reporting the
operating system `"Invalid"` aborts at the processor-model probe. -/
theorem collectData_fault_isolation_witness :
    (collectData envInvalid).1 = none ∧
    (collectData envInvalid).2 ≠ "Data collection successful!" ∧
    getProcessorModel envInvalid "Invalid" = Except.error PyExc.unsupportedOS :=
  collectData_fault_isolation envInvalid PyExc.unsupportedOS (by decide)

/-! ## Claims about the active-ports probe -/

/-- C8: on the mock connection list — statuses
`NONE, LISTEN, NONE, NONE, LISTEN, NONE` paired with ports
`80, 443, 8080, 1337, 5173, 123` — the active-ports probe joins exactly the
element set `{443, 5173}`. -/
theorem getActivePorts_mock :
    (activePortsList mockSConns).toFinset = ({"443", "5173"} : Finset String) ∧
    getActivePorts mockSConns = ", ".intercalate (activePortsList mockSConns) ∧
    getActivePorts mockSConns = "443, 5173" :=
  ⟨by decide, rfl, by decide⟩

/-- C10: the element list joined by `getActivePorts` never repeats a port,
whatever the connection list, because the Python set comprehension collapses
duplicates. -/
theorem getActivePorts_no_duplicates (connections : List SConn) :
    (activePortsList connections).Nodup ∧
    getActivePorts connections = ", ".intercalate (activePortsList connections) :=
  ⟨List.nodup_dedup _, rfl⟩
